import Mathlib

/-!
Verification of the authentication and authorization core of the
Prompt House Premium backend (`unified-python`): user/prompt/token data
model, the access resolver (`auth.py`), the email/password authenticator
(`email_auth.py`), and the prompt/token route handlers (`main.py`).

Database queries (`db.query(...).filter(...).first()/.all()`) are embedded
as list searches over an explicit `DB` state; handler results are
`Except Err _` where `Err` carries the HTTP status and detail of a raised
`HTTPException`.  External library primitives keep their observable
behaviour: `hashlib.sha256(...).hexdigest()` is implemented concretely
below; the JWT library (`jose`) and `bcrypt.checkpw` are taken as
function parameters of the definitions that call them.
-/

namespace Prombank

/-! ## SHA-256 (hashlib.sha256(token.encode()).hexdigest()) -/

/-- Truncate to a 32-bit word. -/
def w32 (n : Nat) : Nat := n % 4294967296

/-- Rotate a 32-bit word right by `k` bits. -/
def rotr (k x : Nat) : Nat := w32 ((x >>> k) ||| (x <<< (32 - k)))

/-- SHA-256 round constants (FIPS 180-4), written in decimal. -/
def sha256K : List Nat :=
  [1116352408, 1899447441, 3049323471, 3921009573, 961987163,
   1508970993, 2453635748, 2870763221, 3624381080, 310598401,
   607225278, 1426881987, 1925078388, 2162078206, 2614888103,
   3248222580, 3835390401, 4022224774, 264347078, 604807628,
   770255983, 1249150122, 1555081692, 1996064986, 2554220882,
   2821834349, 2952996808, 3210313671, 3336571891, 3584528711,
   113926993, 338241895, 666307205, 773529912, 1294757372,
   1396182291, 1695183700, 1986661051, 2177026350, 2456956037,
   2730485921, 2820302411, 3259730800, 3345764771, 3516065817,
   3600352804, 4094571909, 275423344, 430227734, 506948616,
   659060556, 883997877, 958139571, 1322822218, 1537002063,
   1747873779, 1955562222, 2024104815, 2227730452, 2361852424,
   2428436474, 2756734187, 3204031479, 3329325298]

/-- SHA-256 initial hash words, written in decimal. -/
def sha256H0 : List Nat :=
  [1779033703, 3144134277, 1013904242, 2773480762,
   1359893119, 2600822924, 528734635, 1541459225]

/-- Pad a byte message: append 0x80, zeros to 56 mod 64, then the 64-bit
big-endian bit length. -/
def sha256Pad (msg : List Nat) : List Nat :=
  let l := msg.length
  let z := (119 - (l % 64)) % 64
  msg ++ [128] ++ List.replicate z 0 ++
    (List.range 8).map (fun i => ((8 * l) >>> (56 - 8 * i)) % 256)

/-- Split a byte list into 64-byte chunks. -/
def chunks64 (l : List Nat) : List (List Nat) :=
  if h : l = [] then [] else l.take 64 :: chunks64 (l.drop 64)
termination_by l.length
decreasing_by
  simp only [List.length_drop]
  exact Nat.sub_lt (List.length_pos.mpr h) (by decide)

/-- Big-endian 32-bit word `i` of a 64-byte chunk. -/
def sha256Word (chunk : List Nat) (i : Nat) : Nat :=
  ((chunk.getD (4 * i) 0) <<< 24) ||| ((chunk.getD (4 * i + 1) 0) <<< 16) |||
    ((chunk.getD (4 * i + 2) 0) <<< 8) ||| (chunk.getD (4 * i + 3) 0)

/-- The 64-entry message schedule of a chunk. -/
def sha256Schedule (chunk : List Nat) : Array Nat :=
  let w0 := ((List.range 16).map (sha256Word chunk)).toArray
  (List.range 48).foldl
    (fun w i =>
      let j := i + 16
      let x15 := w.getD (j - 15) 0
      let x2 := w.getD (j - 2) 0
      let s0 := (rotr 7 x15) ^^^ (rotr 18 x15) ^^^ (x15 >>> 3)
      let s1 := (rotr 17 x2) ^^^ (rotr 19 x2) ^^^ (x2 >>> 10)
      w.push (w32 (w.getD (j - 16) 0 + s0 + w.getD (j - 7) 0 + s1)))
    w0

/-- One SHA-256 compression round over the working state `[a..h]`. -/
def sha256Round (st : List Nat) (kw : Nat × Nat) : List Nat :=
  match st with
  | [a, b, c, d, e, f, g, h] =>
    let s1 := (rotr 6 e) ^^^ (rotr 11 e) ^^^ (rotr 25 e)
    let ch := (e &&& f) ^^^ ((4294967295 ^^^ e) &&& g)
    let temp1 := w32 (h + s1 + ch + kw.1 + kw.2)
    let s0 := (rotr 2 a) ^^^ (rotr 13 a) ^^^ (rotr 22 a)
    let maj := (a &&& b) ^^^ (a &&& c) ^^^ (b &&& c)
    let temp2 := w32 (s0 + maj)
    [w32 (temp1 + temp2), a, b, c, w32 (d + temp1), e, f, g]
  | _ => st

/-- Compress one 64-byte chunk into the running hash. -/
def sha256Compress (hs : List Nat) (chunk : List Nat) : List Nat :=
  let w := sha256Schedule chunk
  let final := (sha256K.zip w.toList).foldl sha256Round hs
  match hs, final with
  | [h0, h1, h2, h3, h4, h5, h6, h7], [a, b, c, d, e, f, g, h] =>
    [w32 (h0 + a), w32 (h1 + b), w32 (h2 + c), w32 (h3 + d),
     w32 (h4 + e), w32 (h5 + f), w32 (h6 + g), w32 (h7 + h)]
  | _, _ => hs

/-- SHA-256 digest of a byte message, as eight 32-bit words. -/
def sha256Words (msg : List Nat) : List Nat :=
  (chunks64 (sha256Pad msg)).foldl sha256Compress sha256H0

/-- Lower-case hex digit. -/
def hexDigit (n : Nat) : Char :=
  if n < 10 then Char.ofNat (48 + n) else Char.ofNat (87 + n)

/-- Eight-hex-digit rendering of a 32-bit word. -/
def toHex8 (n : Nat) : String :=
  String.mk ((List.range 8).map (fun i => hexDigit ((n >>> (28 - 4 * i)) % 16)))

/-- Hex digest of a byte message. -/
def sha256Hex (msg : List Nat) : String :=
  String.join ((sha256Words msg).map toHex8)

/-- UTF-8 bytes of a string (`token.encode()`). -/
def strBytes (s : String) : List Nat := s.toUTF8.toList.map (fun b => b.toNat)

/-- `auth.hash_token`: `hashlib.sha256(token.encode()).hexdigest()`. -/
def hash_token (token : String) : String := sha256Hex (strBytes token)

/-! ## Data model (`database.py`) -/

/-- `database.User` ORM row (columns that participate in the verified
logic; timestamps are integer clocks). -/
structure User where
  id : String
  email : String
  password_hash : Option String
  google_id : Option String
  first_name : Option String
  last_name : Option String
  profile_picture : Option String
  auth_provider : String
  is_active : Bool
  is_admin : Bool
deriving Repr, DecidableEq

/-- `database.Prompt` ORM row. -/
structure Prompt where
  id : String
  title : String
  description : Option String
  content : String
  tags : List String
  is_public : Bool
  category : Option String
  user_id : String
deriving Repr, DecidableEq

/-- `database.Token` ORM row. -/
structure Token where
  id : String
  name : String
  description : Option String
  token_hash : String
  user_id : String
  is_active : Bool
  last_used_at : Option Int
  usage_count : Nat
  permissions : List String
  expires_at : Option Int
deriving Repr, DecidableEq

/-- The relational store the handlers read and commit to. -/
structure DB where
  users : List User
  prompts : List Prompt
  tokens : List Token
deriving Repr, DecidableEq

/-- An `HTTPException(status_code, detail)`. -/
structure Err where
  status : Nat
  detail : String
deriving Repr, DecidableEq

/-- The credential-bearing parts of an incoming request: the server-side
session's `user_id`, the `Authorization` header, and the `X-API-Token`
header. -/
structure Request where
  session_user_id : Option String
  authorization : Option String
  x_api_token : Option String
deriving Repr, DecidableEq

/-- A decoded JWT payload, as consumed by `get_current_user`
(`payload.get('sub')`). -/
structure JwtPayload where
  sub : Option String
deriving Repr, DecidableEq

/-! ## List helpers: ORM row update and delete semantics -/

/-- Update (in place) the first row matching `p`, as committing a
mutation of a fetched ORM object does. -/
def replaceFirst {α : Type} (p : α → Bool) (f : α → α) : List α → List α
  | [] => []
  | x :: xs => if p x then f x :: xs else x :: replaceFirst p f xs

/-- Delete the first row matching `p` (`db.delete(obj)` on a fetched
object). -/
def eraseFirst {α : Type} (p : α → Bool) : List α → List α
  | [] => []
  | x :: xs => if p x then xs else x :: eraseFirst p xs

/-! ## Access resolver (`auth.py`)

The JWT library (`jose.jwt.decode` behind `verify_token`) is passed in as
`jwtVerify`; `bcrypt.checkpw` as `checkpw`; JWT issuance as `jwtSign`. -/

/-- Session branch of `get_current_user`: `request.session.get('user_id')`
(falsy values skipped), then a user lookup by id; a failed lookup falls
through to the JWT branch. -/
def sessionUser (req : Request) (db : DB) : Option User :=
  match req.session_user_id with
  | some uid => if uid ≠ "" then db.users.find? (fun u => u.id == uid) else none
  | none => none

/-- JWT branch of `get_current_user`: a `Bearer` Authorization header,
`verify_token`, then a user lookup by the payload's `sub`. -/
def jwtUser (jwtVerify : String → Option JwtPayload) (req : Request) (db : DB) : Option User :=
  match req.authorization with
  | some a =>
    if a ≠ "" && a.startsWith "Bearer " then
      match jwtVerify ((a.splitOn " ").getD 1 "") with
      | some payload =>
        match payload.sub with
        | some uid => if uid ≠ "" then db.users.find? (fun u => u.id == uid) else none
        | none => none
      | none => none
    else none
  | none => none

/-- `auth.get_current_user`: the session branch first, then the bearer-JWT
branch. -/
def get_current_user (jwtVerify : String → Option JwtPayload) (req : Request) (db : DB) : Option User :=
  match sessionUser req db with
  | some u => some u
  | none => jwtUser jwtVerify req db

/-- `auth.require_auth`: 401 when `get_current_user` yields nothing. -/
def require_auth (jwtVerify : String → Option JwtPayload) (req : Request) (db : DB) : Except Err User :=
  match get_current_user jwtVerify req db with
  | none => Except.error ⟨401, "Authentication required"⟩
  | some u => Except.ok u

/-- `auth.verify_api_token`: hash the presented token, look up an active
record by hash match, bump `last_used_at`/`usage_count`, then resolve the
owning user. -/
def verify_api_token (db : DB) (token : String) (now : Int) : Option User × DB :=
  if token = "" then (none, db)
  else
    let token_hash := hash_token token
    match db.tokens.find? (fun t => t.token_hash == token_hash && t.is_active) with
    | none => (none, db)
    | some t =>
      let db1 : DB := { db with
        tokens := replaceFirst (fun x => x.token_hash == token_hash && x.is_active)
          (fun x => { x with last_used_at := some now, usage_count := x.usage_count + 1 })
          db.tokens }
      (db1.users.find? (fun u => u.id == t.user_id), db1)

/-- API-token extraction in `get_current_user_or_token`:
`request.headers.get('X-API-Token') or
request.headers.get('Authorization', '').replace('Bearer ', '')`. -/
def apiTokenOf (req : Request) : String :=
  match req.x_api_token with
  | some s => if s ≠ "" then s else (req.authorization.getD "").replace "Bearer " ""
  | none => (req.authorization.getD "").replace "Bearer " ""

/-- `auth.get_current_user_or_token`: session, then JWT (both via
`get_current_user`), then API token. -/
def get_current_user_or_token (jwtVerify : String → Option JwtPayload) (req : Request) (db : DB) (now : Int) : Option User × DB :=
  match get_current_user jwtVerify req db with
  | some u => (some u, db)
  | none =>
    let api_token := apiTokenOf req
    if api_token ≠ "" then verify_api_token db api_token now
    else (none, db)

/-! ## Email/password authentication (`email_auth.py`) -/

/-- `email_auth.authenticate_user`: look up an active local-provider user
by email; fail on a missing user, a falsy stored hash, or a failed
`bcrypt.checkpw`. -/
def authenticate_user (checkpw : String → String → Bool) (db : DB) (email password : String) : Option User :=
  match db.users.find? (fun u => u.email == email && u.auth_provider == "local" && u.is_active) with
  | none => none
  | some user =>
    match user.password_hash with
    | none => none
    | some h => if h = "" then none else if checkpw password h then some user else none

/-- Success payload of `POST /api/auth/login`. -/
structure LoginOk where
  user_id : String
  email : String
  is_admin : Bool
  token : String
deriving Repr, DecidableEq

/-- `email_auth.login_user`: one fixed 401 on any authentication failure. -/
def login_user (checkpw : String → String → Bool) (jwtSign : String → String → String) (db : DB) (email password : String) : Except Err LoginOk :=
  match authenticate_user checkpw db email password with
  | none => Except.error ⟨401, "Invalid email or password"⟩
  | some user => Except.ok ⟨user.id, user.email, user.is_admin, jwtSign user.id user.email⟩

/-! ## Token endpoints (`main.py`) -/

/-- `GET /api/tokens` (`get_tokens`): the query is filtered on the
authenticated user's id; the post-filter loop raises 500 on any
mismatching row. -/
def get_tokens (db : DB) (current_user : User) : Except Err (List Token) :=
  let tokens := db.tokens.filter (fun t => t.user_id == current_user.id)
  if tokens.any (fun t => !(t.user_id == current_user.id)) then
    Except.error ⟨500, "Security error detected"⟩
  else Except.ok tokens

/-- Request body of `POST /api/tokens` (a present field means the key is
in the request JSON). -/
structure CreateTokenBody where
  name : Option String
  description : Option String
  permissions : Option (List String)
deriving Repr, DecidableEq

/-- The token row committed by `create_token`: only the hash of the raw
token is stored; `is_active`/`usage_count` take their column defaults and
`expires_at` is explicitly `None`. -/
def mkToken (current_user : User) (body : CreateTokenBody) (raw_token new_id : String) : Token :=
  { id := new_id,
    name := body.name.getD "MCP Token",
    description := some (body.description.getD ""),
    token_hash := hash_token raw_token,
    user_id := current_user.id,
    is_active := true,
    last_used_at := none,
    usage_count := 0,
    permissions := body.permissions.getD ["read", "write"],
    expires_at := none }

/-- Response of `POST /api/tokens`; `token` carries the raw secret. -/
structure CreateTokenResponse where
  id : String
  name : String
  description : Option String
  token : String
  permissions : List String
deriving Repr, DecidableEq

/-- `POST /api/tokens` (`create_token`); `raw_token` is the value of
`generate_api_token()` (`secrets.token_urlsafe(32)`), `new_id` the fresh
`uuid4`. -/
def create_token (db : DB) (current_user : User) (body : CreateTokenBody) (raw_token new_id : String) : CreateTokenResponse × DB :=
  let token := mkToken current_user body raw_token new_id
  (⟨token.id, token.name, token.description, raw_token, token.permissions⟩,
   { db with tokens := db.tokens ++ [token] })

/-- Patch body of `PUT /api/tokens/{token_id}`. -/
structure TokenPatch where
  name : Option String
  description : Option String
  is_active : Option Bool
  permissions : Option (List String)
deriving Repr, DecidableEq

/-- Field updates of `update_token` (`if 'name' in data: ...`). -/
def applyTokenPatch (patch : TokenPatch) (t : Token) : Token :=
  { t with
    name := patch.name.getD t.name,
    description := (match patch.description with | some d => some d | none => t.description),
    is_active := patch.is_active.getD t.is_active,
    permissions := patch.permissions.getD t.permissions }

/-- `PUT /api/tokens/{token_id}` (`update_token`): fetch filtered on both
token id and owner id, 404 when nothing matches, then the post-fetch
owner recheck (403), then commit the patch. -/
def update_token (db : DB) (current_user : User) (token_id : String) (patch : TokenPatch) : Except Err (Token × DB) :=
  match db.tokens.find? (fun t => t.id == token_id && t.user_id == current_user.id) with
  | none => Except.error ⟨404, "Token not found"⟩
  | some t =>
    if t.user_id ≠ current_user.id then Except.error ⟨403, "Access denied"⟩
    else
      Except.ok (applyTokenPatch patch t,
        { db with tokens := (replaceFirst
            (fun x => x.id == token_id && x.user_id == current_user.id)
            (applyTokenPatch patch) db.tokens) })

/-- `DELETE /api/tokens/{token_id}` (`delete_token`): same
fetch-by-id-and-owner, 404, recheck, then the row is deleted. -/
def delete_token (db : DB) (current_user : User) (token_id : String) : Except Err DB :=
  match db.tokens.find? (fun t => t.id == token_id && t.user_id == current_user.id) with
  | none => Except.error ⟨404, "Token not found"⟩
  | some t =>
    if t.user_id ≠ current_user.id then Except.error ⟨403, "Access denied"⟩
    else Except.ok { db with
      tokens := eraseFirst (fun x => x.id == token_id && x.user_id == current_user.id) db.tokens }

/-! ## Prompt endpoints (`main.py`)

In the source each handler resolves its caller with
`get_current_user_or_token(request, db)` and raises 401 on `None`; the
resolver's outcome is the `current_user : Option User` argument here. -/

/-- `GET /api/prompts/{prompt_id}` (`get_prompt`): the query itself
encodes access control; an inaccessible or missing prompt is a 404. -/
def get_prompt (db : DB) (current_user : Option User) (prompt_id : String) : Except Err Prompt :=
  match current_user with
  | none => Except.error ⟨401, "Authentication required"⟩
  | some u =>
    match db.prompts.find? (fun p => p.id == prompt_id && (p.is_public || p.user_id == u.id)) with
    | none => Except.error ⟨404, "Prompt not found or access denied"⟩
    | some p => Except.ok p

/-- Patch body of `PUT /api/prompts/{prompt_id}`. -/
structure PromptPatch where
  title : Option String
  description : Option String
  content : Option String
  category : Option String
  tags : Option (List String)
  is_public : Option Bool
deriving Repr, DecidableEq

/-- Field updates of `update_prompt` (`if 'title' in data: ...`). -/
def applyPromptPatch (patch : PromptPatch) (p : Prompt) : Prompt :=
  { p with
    title := patch.title.getD p.title,
    description := (match patch.description with | some d => some d | none => p.description),
    content := patch.content.getD p.content,
    category := (match patch.category with | some c => some c | none => p.category),
    tags := patch.tags.getD p.tags,
    is_public := patch.is_public.getD p.is_public }

/-- `PUT /api/prompts/{prompt_id}` (`update_prompt`): fetch by id only,
404 when missing, 403 unless the caller owns the prompt or is an admin
and the prompt is public. -/
def update_prompt (db : DB) (current_user : Option User) (prompt_id : String) (patch : PromptPatch) : Except Err (Prompt × DB) :=
  match current_user with
  | none => Except.error ⟨401, "Authentication required"⟩
  | some u =>
    match db.prompts.find? (fun p => p.id == prompt_id) with
    | none => Except.error ⟨404, "Prompt not found"⟩
    | some p =>
      let is_owner := p.user_id == u.id
      let is_admin_updating_public := u.is_admin && p.is_public
      if !is_owner && !is_admin_updating_public then
        Except.error ⟨403,
          if p.is_public then "Only admins can update public prompts that are not their own"
          else "You can only update your own prompts"⟩
      else
        Except.ok (applyPromptPatch patch p,
          { db with prompts := replaceFirst (fun q => q.id == prompt_id) (applyPromptPatch patch) db.prompts })

/-- `DELETE /api/prompts/{prompt_id}` (`delete_prompt`): same
authorization rule as `update_prompt`. -/
def delete_prompt (db : DB) (current_user : Option User) (prompt_id : String) : Except Err DB :=
  match current_user with
  | none => Except.error ⟨401, "Authentication required"⟩
  | some u =>
    match db.prompts.find? (fun p => p.id == prompt_id) with
    | none => Except.error ⟨404, "Prompt not found"⟩
    | some p =>
      let is_owner := p.user_id == u.id
      let is_admin_deleting_public := u.is_admin && p.is_public
      if !is_owner && !is_admin_deleting_public then
        Except.error ⟨403,
          if p.is_public then "Only admins can delete public prompts that are not their own"
          else "You can only delete your own prompts"⟩
      else
        Except.ok { db with prompts := eraseFirst (fun q => q.id == prompt_id) db.prompts }

/-- Request body of `POST /api/prompts`. -/
structure CreatePromptBody where
  title : Option String
  description : Option String
  content : Option String
  category : Option String
  user_id : Option String
  tags : Option (List String)
  is_public : Option Bool
deriving Repr, DecidableEq

/-- The prompt row committed by `create_prompt`: every field comes from
`data.get(...)`, the owner from `data.get('user_id', 'anonymous')`. -/
def promptOf (body : CreatePromptBody) (new_id : String) : Prompt :=
  { id := new_id,
    title := body.title.getD "Untitled",
    description := body.description,
    content := body.content.getD "",
    category := body.category,
    user_id := body.user_id.getD "anonymous",
    tags := body.tags.getD [],
    is_public := body.is_public.getD false }

/-- Response of `POST /api/prompts`. -/
structure CreatePromptResponse where
  id : String
  title : String
  description : Option String
  content : String
  category : Option String
deriving Repr, DecidableEq

/-- `POST /api/prompts` (`create_prompt`): the handler reads only the
request body (`await request.json()`) and `new_id` (`uuid4`); the
credentials carried by `req` are never consulted. -/
def create_prompt (req : Request) (db : DB) (body : CreatePromptBody) (new_id : String) : CreatePromptResponse × DB :=
  let p := promptOf body new_id
  (⟨p.id, p.title, p.description, p.content, p.category⟩,
   { db with prompts := db.prompts ++ [p] })

/-! ## Google OAuth callback (`main.py`) -/

/-- Session cookie contents relevant to the OAuth flow. -/
structure SessionData where
  oauth_state : Option String
  user_id : Option String
  access_token : Option String
deriving Repr, DecidableEq

/-- The Google profile returned by the userinfo endpoint. -/
structure GoogleUserInfo where
  sub : Option String
  email : Option String
  given_name : Option String
  family_name : Option String
  picture : Option String
deriving Repr, DecidableEq

/-- Inputs of one callback invocation: the query parameters and the
outcomes of the two server-to-server Google calls. -/
structure CallbackEnv where
  query_state : Option String
  query_code : Option String
  token_status : Nat
  token_access : Option String
  userinfo_status : Nat
  userinfo : GoogleUserInfo
deriving Repr, DecidableEq

/-- What the callback hands back to the browser. -/
inductive Response where
  | redirect (url : String)
  | httpError (e : Err)
deriving Repr, DecidableEq

/-- `auth.create_or_update_user_from_google`: match by Google id or
email (SQL `NULL` comparison semantics on the nullable `google_id`),
refresh the profile fields, or create a fresh active user. -/
def create_or_update_user_from_google (info : GoogleUserInfo) (db : DB) (new_uuid : String) : User × DB :=
  match db.users.find? (fun u => u.google_id == info.sub || some u.email == info.email) with
  | some u =>
    let u1 := { u with
      google_id := info.sub,
      first_name := some (info.given_name.getD ""),
      last_name := some (info.family_name.getD ""),
      profile_picture := some (info.picture.getD ""),
      auth_provider := "google" }
    (u1, { db with users := (replaceFirst
      (fun x => x.google_id == info.sub || some x.email == info.email) (fun _ => u1) db.users) })
  | none =>
    let u1 : User :=
      { id := new_uuid,
        email := info.email.getD "",
        password_hash := none,
        google_id := info.sub,
        first_name := some (info.given_name.getD ""),
        last_name := some (info.family_name.getD ""),
        profile_picture := some (info.picture.getD ""),
        auth_provider := "google",
        is_active := true,
        is_admin := false }
    (u1, { db with users := db.users ++ [u1] })

/-- The guard on the callback's `state` query parameter:
`if not state or not session_state or state != session_state: raise`. -/
def stateCheck (queryState storedState : Option String) : Bool :=
  match queryState, storedState with
  | some s, some ss => s ≠ "" && ss ≠ "" && s == ss
  | _, _ => false

/-- The `try` body of `google_callback`: the state check first, then
`session.pop('oauth_state')`, then the code/token/userinfo steps, each
`raise` surfacing as an `Except.error` with the raised message.  The
session is returned as mutated so far, because the Starlette session
middleware saves session mutations even when a later step fails. -/
def googleCallbackTry (jwtSign : String → String → String) (env : CallbackEnv)
    (session : SessionData) (db : DB) (new_uuid : String) :
    Except String (User × DB) × SessionData :=
  if !(stateCheck env.query_state session.oauth_state) then
    (Except.error "Invalid state parameter", session)
  else
    let session1 := { session with oauth_state := none }
    match env.query_code with
    | none => (Except.error "No authorization code received", session1)
    | some code =>
      if code = "" then (Except.error "No authorization code received", session1)
      else if env.token_status ≠ 200 then (Except.error "Token exchange failed", session1)
      else
        match env.token_access with
        | none => (Except.error "No access token received", session1)
        | some tok =>
          if tok = "" then (Except.error "No access token received", session1)
          else if env.userinfo_status ≠ 200 then (Except.error "Failed to get user info", session1)
          else
            let ud := create_or_update_user_from_google env.userinfo db new_uuid
            let jwt := jwtSign ud.1.id ud.1.email
            (Except.ok (ud.1, ud.2),
             { session1 with user_id := some ud.1.id, access_token := some jwt })

/-- `GET /api/auth/google/callback` (`google_callback`): the whole body
runs under `try/except Exception`, whose handler returns
`RedirectResponse("/?auth=error")`; success redirects to the dashboard
and commits the user record. -/
def google_callback (jwtSign : String → String → String) (env : CallbackEnv) (session : SessionData) (db : DB) (new_uuid : String) : Response × SessionData × DB :=
  match googleCallbackTry jwtSign env session db new_uuid with
  | (Except.error _, ses) => (Response.redirect "/?auth=error", ses, db)
  | (Except.ok (_, db2), ses) => (Response.redirect "/dashboard?auth=success", ses, db2)

/-! ## Spec-side predicates (for the refinement statements) -/

/-- Spec wording: `visible(requester, prompt) == prompt.is_public OR
prompt.owner == requester`. -/
def visibleSpec (u : User) (p : Prompt) : Prop :=
  p.is_public = true ∨ p.user_id = u.id

/-- Spec wording: `mutable(requester, prompt) == prompt.owner == requester
OR (requester.is_admin AND prompt.is_public)`. -/
def mutableSpec (u : User) (p : Prompt) : Prop :=
  p.user_id = u.id ∨ (u.is_admin = true ∧ p.is_public = true)

instance visibleSpecDecidable (u : User) (p : Prompt) : Decidable (visibleSpec u p) :=
  decidable_of_iff (p.is_public = true ∨ p.user_id = u.id) Iff.rfl

instance mutableSpecDecidable (u : User) (p : Prompt) : Decidable (mutableSpec u p) :=
  decidable_of_iff (p.user_id = u.id ∨ (u.is_admin = true ∧ p.is_public = true)) Iff.rfl

/-! ## Concrete fixtures for the closed instances -/

/-- An ordinary active local user. -/
def userA : User :=
  ⟨"uA", "a@x.com", some "bcryptHashA", none, none, none, none, "local", true, false⟩

/-- A second active local user, distinct from `userA`. -/
def userB : User :=
  ⟨"uB", "b@x.com", some "bcryptHashB", none, none, none, none, "local", true, false⟩

/-- An active administrator. -/
def adminU : User :=
  ⟨"uAdm", "admin@x.com", some "bcryptHashC", none, none, none, none, "local", true, true⟩

/-- A deactivated user (`is_active = False`). -/
def inactiveU : User :=
  ⟨"uIn", "in@x.com", some "bcryptHashD", none, none, none, none, "local", false, false⟩

/-- An API token owned by `userB`. -/
def tokenB : Token :=
  ⟨"tB", "token of B", none, "storedHashB", "uB", true, none, 0, ["read"], none⟩

/-- An active API token of `userA` whose stored hash is the hash of the
raw secret `secretA`. -/
def apiTok : Token :=
  ⟨"tA", "api", none, hash_token "secretA", "uA", true, none, 0, ["read", "write"], none⟩

/-- An active token of `userA` whose `expires_at` lies in the past. -/
def expiredTok : Token :=
  ⟨"tE", "expired", none, hash_token "secretE", "uA", true, none, 0, [], some 0⟩

/-- A deactivated token of `userA`. -/
def inactiveTok : Token :=
  ⟨"tI", "inactive", none, hash_token "secretI", "uA", false, none, 0, [], none⟩

/-- Store holding `userA`, `userB` and `userB`'s token. -/
def dbTok : DB := ⟨[userA, userB], [], [tokenB]⟩

/-- Store holding `userA` and the verifiable token `apiTok`. -/
def dbApi : DB := ⟨[userA], [], [apiTok]⟩

/-- Store holding `userA` and the expired-but-active token. -/
def dbExpired : DB := ⟨[userA], [], [expiredTok]⟩

/-- Store holding `userA` and the deactivated token. -/
def dbInactiveTok : DB := ⟨[userA], [], [inactiveTok]⟩

/-- Store holding only the deactivated user. -/
def dbInactive : DB := ⟨[inactiveU], [], []⟩

/-- Store with `userA` and no tokens. -/
def dbUserA : DB := ⟨[userA], [], []⟩

/-- The empty store. -/
def dbEmpty : DB := ⟨[], [], []⟩

/-- A private prompt owned by `userB`. -/
def promptPrivB : Prompt := ⟨"pB", "private of B", none, "body", [], false, none, "uB"⟩

/-- A public prompt owned by `userB`. -/
def promptPubB : Prompt := ⟨"pPub", "public of B", none, "body", [], true, none, "uB"⟩

/-- Store with three users and `userB`'s two prompts. -/
def dbPrompts : DB := ⟨[userA, userB, adminU], [promptPrivB, promptPubB], []⟩

/-- A request carrying only an API token. -/
def reqApiOnly : Request := ⟨none, none, some "secretA"⟩

/-- A request carrying only a session bound to the inactive user. -/
def reqSessionIn : Request := ⟨some "uIn", none, none⟩

/-- A request carrying a session bound to `userA` (plus stray headers). -/
def reqSessionA : Request := ⟨some "uA", some "Bearer junk", some "ignored"⟩

/-- A request carrying no credential at all. -/
def noAuthReq : Request := ⟨none, none, none⟩

/-- A JWT verifier that rejects everything. -/
def jwtNone : String → Option JwtPayload := fun _ => none

/-- A concrete JWT signer for closed instances. -/
def jwtSignCat : String → String → String := fun i e => i ++ "." ++ e

/-- A `bcrypt.checkpw` that rejects every password. -/
def checkpwFalse : String → String → Bool := fun _ _ => false

/-- The empty token patch. -/
def emptyTokenPatch : TokenPatch := ⟨none, none, none, none⟩

/-- The patch `{"is_active": false}`. -/
def deactivatePatch : TokenPatch := ⟨none, none, some false, none⟩

/-- The empty prompt patch. -/
def emptyPromptPatch : PromptPatch := ⟨none, none, none, none, none, none⟩

/-- The empty token-creation body. -/
def emptyTokenBody : CreateTokenBody := ⟨none, none, none⟩

/-- A prompt-creation body carrying no `user_id`. -/
def anonPromptBody : CreatePromptBody := ⟨some "T", none, some "C", none, none, none, none⟩

/-- A callback environment whose presented state mismatches every stored
state. -/
def envMismatch : CallbackEnv := ⟨some "stateX", some "code", 200, some "at", 200, ⟨none, none, none, none, none⟩⟩

/-- A session storing the OAuth state `stateY`. -/
def sessionY : SessionData := ⟨some "stateY", none, none⟩

/-- A session storing the OAuth state `stateX`. -/
def sessionX : SessionData := ⟨some "stateX", none, none⟩

/-! ## Helper lemmas -/

theorem find?_append_none {α : Type} (p : α → Bool) {l1 : List α} (l2 : List α)
    (h : ∀ a ∈ l1, p a = false) : List.find? p (l1 ++ l2) = List.find? p l2 := by
  induction l1 with
  | nil => rfl
  | cons x xs ih =>
    have hx := h x (List.mem_cons_self x xs)
    simp only [List.cons_append, List.find?_cons, hx]
    exact ih (fun a ha => h a (List.mem_cons_of_mem x ha))

theorem replaceFirst_append_none {α : Type} (p : α → Bool) (f : α → α) {l1 : List α} (l2 : List α)
    (h : ∀ a ∈ l1, p a = false) :
    replaceFirst p f (l1 ++ l2) = l1 ++ replaceFirst p f l2 := by
  induction l1 with
  | nil => rfl
  | cons x xs ih =>
    have hx := h x (List.mem_cons_self x xs)
    simp only [List.cons_append, replaceFirst, hx, Bool.false_eq_true, if_false, List.cons.injEq,
      true_and]
    exact ih (fun a ha => h a (List.mem_cons_of_mem x ha))

theorem eraseFirst_append_none {α : Type} (p : α → Bool) {l1 : List α} (l2 : List α)
    (h : ∀ a ∈ l1, p a = false) :
    eraseFirst p (l1 ++ l2) = l1 ++ eraseFirst p l2 := by
  induction l1 with
  | nil => rfl
  | cons x xs ih =>
    have hx := h x (List.mem_cons_self x xs)
    simp only [List.cons_append, eraseFirst, hx, Bool.false_eq_true, if_false, List.cons.injEq,
      true_and]
    exact ih (fun a ha => h a (List.mem_cons_of_mem x ha))

theorem find?_eq_of_unique {α : Type} (p : α → Bool) {l : List α} {x : α}
    (hx : x ∈ l) (hpx : p x = true)
    (huniq : ∀ y ∈ l, p y = true → y = x) :
    List.find? p l = some x := by
  induction l with
  | nil => cases hx
  | cons a as ih =>
    rcases Bool.eq_false_or_eq_true (p a) with hpa | hpa
    · have : a = x := huniq a (List.mem_cons_self a as) hpa
      subst this
      simp [List.find?_cons, hpa]
    · rcases List.mem_cons.mp hx with hxa | hxs
      · exact absurd (hxa ▸ hpx) (by simp [hpa])
      · simp only [List.find?_cons, hpa]
        exact ih hxs (fun y hy hpy => huniq y (List.mem_cons_of_mem a hy) hpy)

/-! ## Claims -/

/-- C10: in `update_token` and `delete_token` the post-fetch owner
recheck — the 403 "Access denied" branch — is unreachable: every record
returned by the query filtered on both token id and caller id satisfies
`token.user_id == caller.id`, so each handler either returns the 404 or
commits and succeeds, for every store, caller, token id and patch. -/
theorem token_recheck_unreachable (db : DB) (u : User) (tid : String) (patch : TokenPatch) :
    (update_token db u tid patch = Except.error ⟨404, "Token not found"⟩ ∨
      ∃ t db2, update_token db u tid patch = Except.ok (t, db2)) ∧
    (delete_token db u tid = Except.error ⟨404, "Token not found"⟩ ∨
      ∃ db2, delete_token db u tid = Except.ok db2) := by
  constructor
  · unfold update_token
    cases hfind : db.tokens.find? (fun t => t.id == tid && t.user_id == u.id) with
    | none => exact Or.inl rfl
    | some t =>
      have hp := List.find?_some hfind
      simp only [Bool.and_eq_true, beq_iff_eq] at hp
      right
      refine ⟨applyTokenPatch patch t,
        { db with tokens := (replaceFirst
            (fun x => x.id == tid && x.user_id == u.id) (applyTokenPatch patch) db.tokens) }, ?_⟩
      simp [hp.2]
  · unfold delete_token
    cases hfind : db.tokens.find? (fun t => t.id == tid && t.user_id == u.id) with
    | none => exact Or.inl rfl
    | some t =>
      have hp := List.find?_some hfind
      simp only [Bool.and_eq_true, beq_iff_eq] at hp
      right
      refine ⟨{ db with tokens := eraseFirst (fun x => x.id == tid && x.user_id == u.id) db.tokens }, ?_⟩
      simp [hp.2]

/-- C3: `POST /api/prompts` performs no authentication check: its result
is independent of every credential on the request, and for every request
— including the credential-free one — a prompt is created and committed
whose owner is the body's `user_id`, defaulting to the literal string
"anonymous" when that field is absent. -/
theorem create_prompt_unauthenticated (req1 req2 : Request) (db : DB) (body : CreatePromptBody) (nid : String) :
    create_prompt req1 db body nid = create_prompt req2 db body nid ∧
    create_prompt noAuthReq db body nid =
      (⟨nid, (promptOf body nid).title, body.description, (promptOf body nid).content, body.category⟩,
        { db with prompts := db.prompts ++ [promptOf body nid] }) ∧
    (promptOf body nid).user_id = body.user_id.getD "anonymous" ∧
    (promptOf { body with user_id := none } nid).user_id = "anonymous" := by
  exact ⟨rfl, rfl, rfl, rfl⟩

/-- C1: per-owner isolation of the token endpoints.  `GET /api/tokens`
called by `A` returns exactly the tokens whose `user_id` is `A`'s id (so
never one of `B`'s); `PUT`/`DELETE` on a token owned by `B`, and on a
token id that does not exist at all, both fail with the identical 404
"Token not found". -/
theorem token_owner_isolation (db : DB) (A B : User) (hAB : A.id ≠ B.id)
    (hids : (db.tokens.map (fun t => t.id)).Nodup) :
    (get_tokens db A = Except.ok (db.tokens.filter (fun t => t.user_id == A.id)) ∧
      ∀ t ∈ db.tokens.filter (fun t => t.user_id == A.id), t.user_id = A.id ∧ t.user_id ≠ B.id) ∧
    (∀ tid t patch, t ∈ db.tokens → t.id = tid → t.user_id = B.id →
      update_token db A tid patch = Except.error ⟨404, "Token not found"⟩ ∧
      delete_token db A tid = Except.error ⟨404, "Token not found"⟩) ∧
    (∀ tid patch, (∀ t ∈ db.tokens, t.id ≠ tid) →
      update_token db A tid patch = Except.error ⟨404, "Token not found"⟩ ∧
      delete_token db A tid = Except.error ⟨404, "Token not found"⟩) := by
  have hmem : ∀ t ∈ db.tokens.filter (fun t => t.user_id == A.id), t.user_id = A.id := by
    intro t ht
    exact beq_iff_eq.mp (List.mem_filter.mp ht).2
  refine ⟨⟨?_, fun t ht => ⟨hmem t ht, by rw [hmem t ht]; exact hAB⟩⟩, ?_, ?_⟩
  · have hany : (db.tokens.filter (fun t => t.user_id == A.id)).any
        (fun t => !(t.user_id == A.id)) = false := by
      rw [List.any_eq_false]
      intro t ht
      simp [(List.mem_filter.mp ht).2]
    simp [get_tokens, hany]
  · intro tid t patch htmem htid hown
    have hnone : db.tokens.find? (fun x => x.id == tid && x.user_id == A.id) = none := by
      rw [List.find?_eq_none]
      intro x hx hpx
      simp only [Bool.and_eq_true, beq_iff_eq] at hpx
      have hxt : x = t :=
        List.inj_on_of_nodup_map hids hx htmem (show x.id = t.id by rw [hpx.1, htid])
      exact hAB ((hxt ▸ hpx.2).symm.trans hown)
    constructor
    · unfold update_token; rw [hnone]
    · unfold delete_token; rw [hnone]
  · intro tid patch hnotid
    have hnone : db.tokens.find? (fun x => x.id == tid && x.user_id == A.id) = none := by
      rw [List.find?_eq_none]
      intro x hx hpx
      simp only [Bool.and_eq_true, beq_iff_eq] at hpx
      exact hnotid x hx hpx.1
    constructor
    · unfold update_token; rw [hnone]
    · unfold delete_token; rw [hnone]

/-- C1 witness: in the concrete store `dbTok` (`userA`, `userB`, one
token `tB` owned by `userB`), `userA`'s update and delete of `tB` and of
a nonexistent id all return the identical 404. -/
theorem token_owner_isolation_witness :
    userA.id ≠ userB.id ∧ tokenB.user_id = userB.id ∧
    update_token dbTok userA "tB" emptyTokenPatch = Except.error ⟨404, "Token not found"⟩ ∧
    delete_token dbTok userA "tB" = Except.error ⟨404, "Token not found"⟩ ∧
    update_token dbTok userA "nosuch" emptyTokenPatch = Except.error ⟨404, "Token not found"⟩ ∧
    delete_token dbTok userA "nosuch" = Except.error ⟨404, "Token not found"⟩ := by
  have h := token_owner_isolation dbTok userA userB (by decide) (by decide)
  exact ⟨by decide, by decide,
    (h.2.1 "tB" tokenB emptyTokenPatch (by decide) (by decide) (by decide)).1,
    (h.2.1 "tB" tokenB emptyTokenPatch (by decide) (by decide) (by decide)).2,
    (h.2.2 "nosuch" emptyTokenPatch (by decide)).1,
    (h.2.2 "nosuch" emptyTokenPatch (by decide)).2⟩

/-- C2: for a prompt `p` stored under id `pid`, `GET` by `u` succeeds
exactly when `p` is public or owned by `u` (otherwise 404), and
`PUT`/`DELETE` succeed exactly when `u` owns `p` or is an admin and `p`
is public; in particular an admin updating or deleting another user's
private prompt is refused with 403. -/
theorem prompt_visibility_mutability (db : DB) (u : User) (p : Prompt) (pid : String)
    (patch : PromptPatch)
    (hids : (db.prompts.map (fun q => q.id)).Nodup)
    (hp : p ∈ db.prompts) (hpid : p.id = pid) :
    (get_prompt db (some u) pid = Except.ok p ↔ visibleSpec u p) ∧
    (¬ visibleSpec u p →
      get_prompt db (some u) pid = Except.error ⟨404, "Prompt not found or access denied"⟩) ∧
    ((∃ q db2, update_prompt db (some u) pid patch = Except.ok (q, db2)) ↔ mutableSpec u p) ∧
    ((∃ db2, delete_prompt db (some u) pid = Except.ok db2) ↔ mutableSpec u p) ∧
    (u.is_admin = true → p.is_public = false → p.user_id ≠ u.id →
      update_prompt db (some u) pid patch =
        Except.error ⟨403, "You can only update your own prompts"⟩ ∧
      delete_prompt db (some u) pid =
        Except.error ⟨403, "You can only delete your own prompts"⟩) := by
  have hinj : ∀ y ∈ db.prompts, y.id = p.id → y = p := fun y hy hyid =>
    List.inj_on_of_nodup_map hids hy hp hyid
  have hfindid : db.prompts.find? (fun q => q.id == pid) = some p := by
    apply find?_eq_of_unique _ hp (by simp [hpid])
    intro y hy hpy
    simp only [beq_iff_eq] at hpy
    exact hinj y hy (hpy.trans hpid.symm)
  have hvis_pos : visibleSpec u p →
      db.prompts.find? (fun q => q.id == pid && (q.is_public || q.user_id == u.id)) = some p := by
    intro hv
    apply find?_eq_of_unique _ hp
    · simp only [Bool.and_eq_true, Bool.or_eq_true, beq_iff_eq]
      exact ⟨hpid, hv⟩
    · intro y hy hpy
      simp only [Bool.and_eq_true, beq_iff_eq] at hpy
      exact hinj y hy (hpy.1.trans hpid.symm)
  have hvis_neg : ¬ visibleSpec u p →
      db.prompts.find? (fun q => q.id == pid && (q.is_public || q.user_id == u.id)) = none := by
    intro hv
    rw [List.find?_eq_none]
    intro y hy hpy
    simp only [Bool.and_eq_true, Bool.or_eq_true, beq_iff_eq] at hpy
    have hyp := hinj y hy (hpy.1.trans hpid.symm)
    subst hyp
    exact hv hpy.2
  have hupd_pos : mutableSpec u p → update_prompt db (some u) pid patch =
      Except.ok (applyPromptPatch patch p,
        { db with prompts := (replaceFirst (fun q => q.id == pid) (applyPromptPatch patch) db.prompts) }) := by
    intro hm
    have hcond : (!(p.user_id == u.id) && !(u.is_admin && p.is_public)) = false := by
      rcases hm with h | ⟨h1, h2⟩
      · simp [h]
      · simp [h1, h2]
    simp only [update_prompt, hfindid, hcond, Bool.false_eq_true, if_false]
  have hdel_pos : mutableSpec u p → delete_prompt db (some u) pid =
      Except.ok { db with prompts := eraseFirst (fun q => q.id == pid) db.prompts } := by
    intro hm
    have hcond : (!(p.user_id == u.id) && !(u.is_admin && p.is_public)) = false := by
      rcases hm with h | ⟨h1, h2⟩
      · simp [h]
      · simp [h1, h2]
    simp only [delete_prompt, hfindid, hcond, Bool.false_eq_true, if_false]
  have hupd_neg : ¬ mutableSpec u p → update_prompt db (some u) pid patch =
      Except.error ⟨403,
        if p.is_public then "Only admins can update public prompts that are not their own"
        else "You can only update your own prompts"⟩ := by
    intro hm
    have h1 : (p.user_id == u.id) = false :=
      beq_eq_false_iff_ne.mpr (fun h => hm (Or.inl h))
    have h2 : (u.is_admin && p.is_public) = false := by
      rcases Bool.eq_false_or_eq_true (u.is_admin && p.is_public) with h | h
      · exact absurd (Or.inr ((Bool.and_eq_true _ _).mp h)) hm
      · exact h
    simp [update_prompt, hfindid, h1, h2]
  have hdel_neg : ¬ mutableSpec u p → delete_prompt db (some u) pid =
      Except.error ⟨403,
        if p.is_public then "Only admins can delete public prompts that are not their own"
        else "You can only delete your own prompts"⟩ := by
    intro hm
    have h1 : (p.user_id == u.id) = false :=
      beq_eq_false_iff_ne.mpr (fun h => hm (Or.inl h))
    have h2 : (u.is_admin && p.is_public) = false := by
      rcases Bool.eq_false_or_eq_true (u.is_admin && p.is_public) with h | h
      · exact absurd (Or.inr ((Bool.and_eq_true _ _).mp h)) hm
      · exact h
    simp [delete_prompt, hfindid, h1, h2]
  refine ⟨⟨?_, ?_⟩, ?_, ⟨?_, ?_⟩, ⟨?_, ?_⟩, ?_⟩
  · intro hok
    by_cases hv : visibleSpec u p
    · exact hv
    · simp [get_prompt, hvis_neg hv] at hok
  · intro hv
    simp [get_prompt, hvis_pos hv]
  · intro hv
    simp [get_prompt, hvis_neg hv]
  · rintro ⟨q, db2, hok⟩
    by_cases hm : mutableSpec u p
    · exact hm
    · rw [hupd_neg hm] at hok
      exact absurd hok (by simp)
  · intro hm
    exact ⟨_, _, hupd_pos hm⟩
  · rintro ⟨db2, hok⟩
    by_cases hm : mutableSpec u p
    · exact hm
    · rw [hdel_neg hm] at hok
      exact absurd hok (by simp)
  · intro hm
    exact ⟨_, hdel_pos hm⟩
  · intro hadm hpub hown
    have hm : ¬ mutableSpec u p := by
      rintro (h | ⟨h1, h2⟩)
      · exact hown h
      · rw [hpub] at h2
        cases h2
    constructor
    · rw [hupd_neg hm, hpub]
      simp
    · rw [hdel_neg hm, hpub]
      simp

/-- C2 witness: in `dbPrompts` the admin's update/delete of `userB`'s
private prompt are 403, the admin cannot see it (404), while `userA` can
read `userB`'s public prompt. -/
theorem prompt_visibility_mutability_witness :
    ((dbPrompts.prompts.map (fun q => q.id)).Nodup ∧ promptPrivB ∈ dbPrompts.prompts ∧
      adminU.is_admin = true ∧ promptPrivB.is_public = false ∧ promptPrivB.user_id ≠ adminU.id) ∧
    update_prompt dbPrompts (some adminU) "pB" emptyPromptPatch =
      Except.error ⟨403, "You can only update your own prompts"⟩ ∧
    delete_prompt dbPrompts (some adminU) "pB" =
      Except.error ⟨403, "You can only delete your own prompts"⟩ ∧
    get_prompt dbPrompts (some adminU) "pB" =
      Except.error ⟨404, "Prompt not found or access denied"⟩ ∧
    get_prompt dbPrompts (some userA) "pPub" = Except.ok promptPubB := by
  have h := prompt_visibility_mutability dbPrompts adminU promptPrivB "pB" emptyPromptPatch
    (by decide) (by decide) (by decide)
  have h2 := prompt_visibility_mutability dbPrompts userA promptPubB "pPub" emptyPromptPatch
    (by decide) (by decide) (by decide)
  exact ⟨⟨by decide, by decide, by decide, by decide, by decide⟩,
    (h.2.2.2.2 (by decide) (by decide) (by decide)).1,
    (h.2.2.2.2 (by decide) (by decide) (by decide)).2,
    h.2.1 (by decide),
    h2.1.mpr (by decide)⟩

/-- C4: creating an API token stores only the SHA-256 hash of the fresh
raw secret and returns the raw secret in the creation response;
immediately afterwards verifying that secret resolves the owning user,
and after the owner deletes the token, or deactivates it via the update
endpoint, the same secret no longer verifies. -/
theorem api_token_lifecycle (db : DB) (u : User) (body : CreateTokenBody) (raw nid : String)
    (now1 now2 now3 : Int)
    (hraw : raw ≠ "")
    (hfresh : ∀ t ∈ db.tokens, t.token_hash ≠ hash_token raw)
    (hid : ∀ t ∈ db.tokens, t.id ≠ nid)
    (huser : db.users.find? (fun x => x.id == u.id) = some u) :
    (create_token db u body raw nid).1.token = raw ∧
    (create_token db u body raw nid).2 = { db with tokens := db.tokens ++ [mkToken u body raw nid] } ∧
    (mkToken u body raw nid).token_hash = hash_token raw ∧
    (verify_api_token (create_token db u body raw nid).2 raw now1).1 = some u ∧
    delete_token (create_token db u body raw nid).2 u nid = Except.ok db ∧
    (verify_api_token db raw now2).1 = none ∧
    update_token (create_token db u body raw nid).2 u nid deactivatePatch =
      Except.ok (applyTokenPatch deactivatePatch (mkToken u body raw nid),
        { db with tokens := db.tokens ++ [applyTokenPatch deactivatePatch (mkToken u body raw nid)] }) ∧
    (verify_api_token
        { db with tokens := db.tokens ++ [applyTokenPatch deactivatePatch (mkToken u body raw nid)] }
        raw now3).1 = none := by
  have hpfx : ∀ t ∈ db.tokens, ((t.token_hash == hash_token raw) && t.is_active) = false := by
    intro t ht
    have hb : (t.token_hash == hash_token raw) = false := beq_eq_false_iff_ne.mpr (hfresh t ht)
    simp [hb]
  have hqfx : ∀ t ∈ db.tokens, ((t.id == nid) && (t.user_id == u.id)) = false := by
    intro t ht
    have hb : (t.id == nid) = false := beq_eq_false_iff_ne.mpr (hid t ht)
    simp [hb]
  have hfind1 : List.find? (fun t => t.token_hash == hash_token raw && t.is_active)
      (db.tokens ++ [mkToken u body raw nid]) = some (mkToken u body raw nid) := by
    rw [find?_append_none _ _ hpfx]
    simp [List.find?_cons, mkToken]
  have hfind2 : List.find? (fun t => t.id == nid && t.user_id == u.id)
      (db.tokens ++ [mkToken u body raw nid]) = some (mkToken u body raw nid) := by
    rw [find?_append_none _ _ hqfx]
    simp [List.find?_cons, mkToken]
  have hverify1 : (verify_api_token { db with tokens := db.tokens ++ [mkToken u body raw nid] } raw now1).1 = some u := by
    simp only [verify_api_token]
    rw [if_neg hraw, hfind1]
    simpa [mkToken] using huser
  have hdel : delete_token { db with tokens := db.tokens ++ [mkToken u body raw nid] } u nid = Except.ok db := by
    simp only [delete_token]
    rw [hfind2]
    have hu : (mkToken u body raw nid).user_id = u.id := rfl
    have hq : ((mkToken u body raw nid).id == nid && (mkToken u body raw nid).user_id == u.id) = true := by
      simp [mkToken]
    have hid2 : (mkToken u body raw nid).id = nid := rfl
    have happ := eraseFirst_append_none (fun x => x.id == nid && x.user_id == u.id)
      [mkToken u body raw nid] hqfx
    simp [hu, hq, hid2, happ, eraseFirst]
  have hverify2 : (verify_api_token db raw now2).1 = none := by
    simp only [verify_api_token]
    rw [if_neg hraw]
    rw [List.find?_eq_none.mpr (fun t ht => by simp [hpfx t ht])]
  have hupd : update_token { db with tokens := db.tokens ++ [mkToken u body raw nid] } u nid deactivatePatch =
      Except.ok (applyTokenPatch deactivatePatch (mkToken u body raw nid),
        { db with tokens := db.tokens ++ [applyTokenPatch deactivatePatch (mkToken u body raw nid)] }) := by
    simp only [update_token]
    rw [hfind2]
    have hu : (mkToken u body raw nid).user_id = u.id := rfl
    have hq : ((mkToken u body raw nid).id == nid && (mkToken u body raw nid).user_id == u.id) = true := by
      simp [mkToken]
    have hid2 : (mkToken u body raw nid).id = nid := rfl
    have happ := replaceFirst_append_none (fun x => x.id == nid && x.user_id == u.id)
      (applyTokenPatch deactivatePatch) [mkToken u body raw nid] hqfx
    simp [hu, hq, hid2, happ, replaceFirst]
  have hverify3 : (verify_api_token
      { db with tokens := db.tokens ++ [applyTokenPatch deactivatePatch (mkToken u body raw nid)] }
      raw now3).1 = none := by
    simp only [verify_api_token]
    rw [if_neg hraw]
    have hall : ∀ t ∈ db.tokens ++ [applyTokenPatch deactivatePatch (mkToken u body raw nid)],
        ((t.token_hash == hash_token raw) && t.is_active) = false := by
      intro t ht
      rcases List.mem_append.mp ht with h | h
      · exact hpfx t h
      · have : t = applyTokenPatch deactivatePatch (mkToken u body raw nid) := by
          simpa using h
        subst this
        simp [applyTokenPatch, deactivatePatch]
    rw [List.find?_eq_none.mpr (fun t ht => by simp [hall t ht])]
  exact ⟨rfl, rfl, rfl, hverify1, hdel, hverify2, hupd, hverify3⟩

/-- C4 witness: in the one-user store `dbUserA`, create a token from the
raw secret `rawSecret4`; the response returns the secret, verification
resolves `userA`, and after deletion the secret fails. -/
theorem api_token_lifecycle_witness :
    ("rawSecret4" ≠ "" ∧ dbUserA.tokens = [] ∧
      dbUserA.users.find? (fun x => x.id == userA.id) = some userA) ∧
    (create_token dbUserA userA emptyTokenBody "rawSecret4" "tok4").1.token = "rawSecret4" ∧
    (verify_api_token (create_token dbUserA userA emptyTokenBody "rawSecret4" "tok4").2
      "rawSecret4" 1).1 = some userA ∧
    delete_token (create_token dbUserA userA emptyTokenBody "rawSecret4" "tok4").2 userA "tok4" =
      Except.ok dbUserA ∧
    (verify_api_token dbUserA "rawSecret4" 2).1 = none := by
  have h := api_token_lifecycle dbUserA userA emptyTokenBody "rawSecret4" "tok4" 1 2 3
    (by decide) (by decide) (by decide) (by decide)
  exact ⟨⟨by decide, by decide, by decide⟩, h.1, h.2.2.2.1, h.2.2.2.2.1, h.2.2.2.2.2.1⟩

/-- C5 counterexample: a request authenticated solely by a valid API
token resolves a principal through `get_current_user_or_token`, yet
`require_auth` still raises 401 — so "`require_auth` raises 401 exactly
when no principal resolves" fails on the code. -/
theorem require_auth_ignores_api_token :
    (get_current_user_or_token jwtNone reqApiOnly dbApi 7).1 = some userA ∧
    require_auth jwtNone reqApiOnly dbApi = Except.error ⟨401, "Authentication required"⟩ := by
  constructor
  · simp [get_current_user_or_token, get_current_user, sessionUser, jwtUser, reqApiOnly, apiTokenOf,
      verify_api_token, dbApi, apiTok, userA, List.find?_cons, replaceFirst, jwtNone]
  · simp [require_auth, get_current_user, sessionUser, jwtUser, reqApiOnly, jwtNone]

/-- C5 amended: the resolver checks the session, then a bearer JWT, then
an API token, the first success winning and `None` only when all fail;
but `require_auth` wraps only the session/JWT resolver
(`get_current_user`), raising 401 exactly when those two fail — it never
consults API tokens. -/
theorem access_resolver_order (jwtVerify : String → Option JwtPayload) (req : Request) (db : DB)
    (now : Int) :
    (∀ u, sessionUser req db = some u → get_current_user jwtVerify req db = some u) ∧
    (sessionUser req db = none →
      get_current_user jwtVerify req db = jwtUser jwtVerify req db) ∧
    (∀ u, get_current_user jwtVerify req db = some u →
      get_current_user_or_token jwtVerify req db now = (some u, db)) ∧
    (get_current_user jwtVerify req db = none →
      get_current_user_or_token jwtVerify req db now =
        if apiTokenOf req ≠ "" then verify_api_token db (apiTokenOf req) now else (none, db)) ∧
    (∀ u, require_auth jwtVerify req db = Except.ok u ↔ get_current_user jwtVerify req db = some u) ∧
    (require_auth jwtVerify req db = Except.error ⟨401, "Authentication required"⟩ ↔
      get_current_user jwtVerify req db = none) := by
  refine ⟨?_, ?_, ?_, ?_, ?_, ?_⟩
  · intro u h
    simp [get_current_user, h]
  · intro h
    simp [get_current_user, h]
  · intro u h
    simp [get_current_user_or_token, h]
  · intro h
    simp [get_current_user_or_token, h]
  · intro u
    constructor
    · intro h
      unfold require_auth at h
      cases hg : get_current_user jwtVerify req db with
      | none => rw [hg] at h; exact absurd h (by simp)
      | some v => rw [hg] at h; simp only [Except.ok.injEq] at h; rw [h]
    · intro h
      simp [require_auth, h]
  · constructor
    · intro h
      cases hg : get_current_user jwtVerify req db with
      | none => rfl
      | some v =>
        unfold require_auth at h
        rw [hg] at h
        exact absurd h (by simp)
    · intro h
      simp [require_auth, h]

/-- C5 witness for the amended theorem: a session bound to `userA`
resolves through every layer, and `require_auth` succeeds. -/
theorem access_resolver_order_witness :
    get_current_user jwtNone reqSessionA dbApi = some userA ∧
    get_current_user_or_token jwtNone reqSessionA dbApi 0 = (some userA, dbApi) ∧
    require_auth jwtNone reqSessionA dbApi = Except.ok userA := by
  have h := access_resolver_order jwtNone reqSessionA dbApi 0
  have hg : get_current_user jwtNone reqSessionA dbApi = some userA := by decide
  exact ⟨hg, h.2.2.1 userA hg, (h.2.2.2.2.1 userA).mpr hg⟩

/-- C6 counterexample: `verify_api_token` never consults `expires_at`:
the active token `expiredTok` has `expires_at = 0`, yet at the later
time 100 verification of its secret still resolves `userA` instead of
returning no user. -/
theorem verify_accepts_expired_token :
    expiredTok.is_active = true ∧ expiredTok.expires_at = some 0 ∧ (0 : Int) < 100 ∧
    (verify_api_token dbExpired "secretE" 100).1 = some userA := by
  refine ⟨rfl, rfl, by decide, ?_⟩
  simp [verify_api_token, dbExpired, expiredTok, userA, List.find?_cons, replaceFirst]

/-- C6 amended: verification does fail for inactive tokens — if every
record whose stored hash matches the presented secret is inactive, no
user is returned — but the expiry timestamp is never checked: the
resolved user is invariant under arbitrary rewriting of every token's
`expires_at`. -/
theorem verify_inactive_fails_expiry_ignored (db : DB) (s : String) (now : Int)
    (f : Token → Option Int) :
    ((∀ t ∈ db.tokens, t.token_hash = hash_token s → t.is_active = false) →
      (verify_api_token db s now).1 = none) ∧
    (verify_api_token
        { db with tokens := db.tokens.map (fun t => { t with expires_at := f t }) } s now).1
      = (verify_api_token db s now).1 := by
  constructor
  · intro h
    by_cases hs : s = ""
    · simp [verify_api_token, hs]
    · simp only [verify_api_token]
      rw [if_neg hs]
      rw [List.find?_eq_none.mpr ?hnone]
      case hnone =>
        intro t ht
        simp only [Bool.and_eq_true, beq_iff_eq]
        rintro ⟨hh, ha⟩
        rw [h t ht hh] at ha
        cases ha
  · by_cases hs : s = ""
    · simp [verify_api_token, hs]
    · simp only [verify_api_token]
      rw [if_neg hs, if_neg hs]
      have hfind : List.find? (fun t => t.token_hash == hash_token s && t.is_active)
          (db.tokens.map (fun t => { t with expires_at := f t })) =
          (List.find? (fun t => t.token_hash == hash_token s && t.is_active) db.tokens).map
            (fun t => { t with expires_at := f t }) := by
        rw [List.find?_map]
        rfl
      cases hf : List.find? (fun t => t.token_hash == hash_token s && t.is_active) db.tokens with
      | none => rw [hfind, hf]; rfl
      | some t => rw [hfind, hf]; rfl

/-- C6 witness for the amended theorem: the store holding only the
deactivated token `inactiveTok` rejects that token's own secret. -/
theorem verify_inactive_fails_witness :
    inactiveTok.is_active = false ∧ (verify_api_token dbInactiveTok "secretI" 0).1 = none := by
  refine ⟨rfl, (verify_inactive_fails_expiry_ignored dbInactiveTok "secretI" 0 (fun _ => none)).1 ?_⟩
  intro t ht _
  have h : t = inactiveTok := by simpa [dbInactiveTok] using ht
  rw [h]
  rfl

/-- C7 counterexample: the session branch performs no `is_active`
filter: a session bound to the deactivated `inactiveU` still resolves
that user through the session path. -/
theorem session_resolves_inactive_user :
    inactiveU.is_active = false ∧
    sessionUser reqSessionIn dbInactive = some inactiveU ∧
    get_current_user jwtNone reqSessionIn dbInactive = some inactiveU := by
  exact ⟨rfl, by decide, by decide⟩

/-- C7 amended: step 1 of the resolver returns whatever user record the
session's stored subject id looks up, regardless of its `is_active`
flag. -/
theorem session_path_no_active_check (jwtVerify : String → Option JwtPayload) (req : Request)
    (db : DB) (uid : String) (u : User)
    (hsess : req.session_user_id = some uid) (hne : uid ≠ "")
    (hfind : db.users.find? (fun x => x.id == uid) = some u) :
    get_current_user jwtVerify req db = some u := by
  simp [get_current_user, sessionUser, hsess, hne, hfind]

/-- C7 witness for the amended theorem, applied at the deactivated
user. -/
theorem session_path_no_active_check_witness :
    reqSessionIn.session_user_id = some "uIn" ∧
    dbInactive.users.find? (fun x => x.id == "uIn") = some inactiveU ∧
    inactiveU.is_active = false ∧
    get_current_user jwtNone reqSessionIn dbInactive = some inactiveU := by
  exact ⟨rfl, by decide, rfl,
    session_path_no_active_check jwtNone reqSessionIn dbInactive "uIn" inactiveU rfl
      (by decide) (by decide)⟩

/-- C8: every failed login yields the one 401 response with detail
"Invalid email or password"; both failure causes — no matching user
record, and a wrong password for an existing record — make
`authenticate_user` return `None`, and any two failed logins produce
identical responses. -/
theorem login_no_user_enumeration
    (checkpw checkpw2 : String → String → Bool) (jwtSign jwtSign2 : String → String → String)
    (db db2 : DB) (e p e2 p2 : String) :
    ((∀ u ∈ db.users, u.email ≠ e) → authenticate_user checkpw db e p = none) ∧
    (∀ u h, db.users.find? (fun x => x.email == e && x.auth_provider == "local" && x.is_active) = some u →
      u.password_hash = some h → checkpw p h = false →
      authenticate_user checkpw db e p = none) ∧
    (authenticate_user checkpw db e p = none →
      login_user checkpw jwtSign db e p = Except.error ⟨401, "Invalid email or password"⟩) ∧
    (authenticate_user checkpw db e p = none → authenticate_user checkpw2 db2 e2 p2 = none →
      login_user checkpw jwtSign db e p = login_user checkpw2 jwtSign2 db2 e2 p2) := by
  refine ⟨?_, ?_, ?_, ?_⟩
  · intro h
    unfold authenticate_user
    rw [List.find?_eq_none.mpr ?hmiss]
    case hmiss =>
      intro x hx
      simp only [Bool.and_eq_true, beq_iff_eq]
      rintro ⟨⟨he, _⟩, _⟩
      exact h x hx he
  · intro u h hfind hhash hcp
    by_cases hh : h = ""
    · simp [authenticate_user, hfind, hhash, hh]
    · simp [authenticate_user, hfind, hhash, hh, hcp]
  · intro h
    simp [login_user, h]
  · intro h1 h2
    simp [login_user, h1, h2]

/-- C8 witness: a login with an unknown email against the empty store
and a wrong-password login for the existing `userA` produce the
identical 401 response. -/
theorem login_no_user_enumeration_witness :
    authenticate_user checkpwFalse dbEmpty "a@x.com" "pw1" = none ∧
    authenticate_user checkpwFalse dbUserA "a@x.com" "pw2" = none ∧
    login_user checkpwFalse jwtSignCat dbEmpty "a@x.com" "pw1" =
      Except.error ⟨401, "Invalid email or password"⟩ ∧
    login_user checkpwFalse jwtSignCat dbEmpty "a@x.com" "pw1" =
      login_user checkpwFalse jwtSignCat dbUserA "a@x.com" "pw2" := by
  have h1 : authenticate_user checkpwFalse dbEmpty "a@x.com" "pw1" = none := by decide
  have h2 : authenticate_user checkpwFalse dbUserA "a@x.com" "pw2" = none := by decide
  exact ⟨h1, h2,
    (login_no_user_enumeration checkpwFalse checkpwFalse jwtSignCat jwtSignCat dbEmpty dbUserA
      "a@x.com" "pw1" "a@x.com" "pw2").2.2.1 h1,
    (login_no_user_enumeration checkpwFalse checkpwFalse jwtSignCat jwtSignCat dbEmpty dbUserA
      "a@x.com" "pw1" "a@x.com" "pw2").2.2.2 h1 h2⟩

/-- C9: the callback rejects whenever the presented state is absent, the
stored state is absent, or the two differ — returning the error redirect
with session and store untouched; once the state check has passed the
stored state is discarded (single use), even when a later step fails;
and every outcome is a redirect (dashboard on success, error landing
page on any failure), never an HTTP error response. -/
theorem oauth_callback_state_and_errors (jwtSign : String → String → String)
    (env : CallbackEnv) (session : SessionData) (db : DB) (nid : String) :
    ((env.query_state = none ∨ session.oauth_state = none ∨
        env.query_state ≠ session.oauth_state) →
      google_callback jwtSign env session db nid =
        (Response.redirect "/?auth=error", session, db)) ∧
    ((google_callback jwtSign env session db nid).1 = Response.redirect "/dashboard?auth=success" ∨
      (google_callback jwtSign env session db nid).1 = Response.redirect "/?auth=error") ∧
    (∀ e, (google_callback jwtSign env session db nid).1 ≠ Response.httpError e) ∧
    (stateCheck env.query_state session.oauth_state = true →
      (google_callback jwtSign env session db nid).2.1.oauth_state = none) := by
  have hdiscard : stateCheck env.query_state session.oauth_state = true →
      (googleCallbackTry jwtSign env session db nid).2.oauth_state = none := by
    intro h
    simp only [googleCallbackTry, h, Bool.not_true, Bool.false_eq_true, if_false]
    cases env.query_code with
    | none => rfl
    | some code =>
      by_cases hc : code = ""
      · simp [hc]
      · by_cases ht : env.token_status ≠ 200
        · simp [hc, ht]
        · cases env.token_access with
          | none => simp [hc, ht]
          | some tok =>
            by_cases htk : tok = ""
            · simp [hc, ht, htk]
            · by_cases hui : env.userinfo_status ≠ 200
              · simp [hc, ht, htk, hui]
              · simp [hc, ht, htk, hui]
  have hrej : (env.query_state = none ∨ session.oauth_state = none ∨
      env.query_state ≠ session.oauth_state) →
      google_callback jwtSign env session db nid =
        (Response.redirect "/?auth=error", session, db) := by
    intro h
    have hfalse : stateCheck env.query_state session.oauth_state = false := by
      unfold stateCheck
      rcases hq : env.query_state with _ | s
      · rfl
      · rcases hss : session.oauth_state with _ | ss
        · rfl
        · rcases h with h | h | h
          · rw [hq] at h; cases h
          · rw [hss] at h; cases h
          · rw [hq, hss] at h
            have hne : ¬ s = ss := fun he => h (by rw [he])
            simp [hne]
    simp [google_callback, googleCallbackTry, hfalse]
  rcases htry : googleCallbackTry jwtSign env session db nid with ⟨r, ses⟩
  refine ⟨hrej, ?_, ?_, ?_⟩
  · cases r with
    | error msg => right; simp [google_callback, htry]
    | ok ud =>
      left
      rcases ud with ⟨uu, db2⟩
      simp [google_callback, htry]
  · intro e'
    cases r with
    | error msg => simp [google_callback, htry]
    | ok ud =>
      rcases ud with ⟨uu, db2⟩
      simp [google_callback, htry]
  · intro h
    have h2 := hdiscard h
    rw [htry] at h2
    cases r with
    | error msg => simpa [google_callback, htry] using h2
    | ok ud =>
      rcases ud with ⟨uu, db2⟩
      simpa [google_callback, htry] using h2

/-- C9 witness: a presented state `stateX` against a stored `stateY` is
rejected with the error redirect and an untouched session; against a
stored `stateX` the check passes and the stored state is discarded. -/
theorem oauth_callback_witness :
    envMismatch.query_state ≠ sessionY.oauth_state ∧
    google_callback jwtSignCat envMismatch sessionY dbEmpty "nid" =
      (Response.redirect "/?auth=error", sessionY, dbEmpty) ∧
    stateCheck envMismatch.query_state sessionX.oauth_state = true ∧
    (google_callback jwtSignCat envMismatch sessionX dbEmpty "nid").2.1.oauth_state = none := by
  have h := oauth_callback_state_and_errors jwtSignCat envMismatch sessionY dbEmpty "nid"
  have h2 := oauth_callback_state_and_errors jwtSignCat envMismatch sessionX dbEmpty "nid"
  exact ⟨by decide, h.1 (Or.inr (Or.inr (by decide))), by decide, h2.2.2.2 (by decide)⟩

end Prombank
